import Mathlib

/-!
Verification development for the streamlord-agency-tycoon weekly world
simulation.  The TypeScript sources are shallowly embedded: JavaScript
numbers become rationals, Math.floor becomes Int.floor, Math.random draws
and the transcendental Math.log10 are threaded as explicit oracle
parameters, and the mutable world singleton becomes an explicit state
record.  Field and function names follow the source files
(src/config.ts, src/entities/Streamer.ts, src/entities/Contract.ts,
src/entities/WeeklySchedule.ts, src/scenes/ScoutScene.ts,
src/world/AIAgency.ts, src/world/WorldSimulator.ts, src/world/WorldState.ts).
-/

namespace StreamLord

/-- Platform keys from config.ts PLATFORMS. -/
inductive PlatformKey | SWITCH | YETUBE | OHFANS
deriving DecidableEq, Repr

/-- Genre keys from config.ts GENRES. -/
inductive GenreKey
  | GAMING | VTUBER | IRL | MUSIC | ASMR | REACTION | EDUCATIONAL | FITNESS | CREATIVE | VARIETY
deriving DecidableEq, Repr

/-- Numeric fields of one PLATFORMS entry used by the simulation. -/
structure PlatformData where
  revenueMultiplier : ℚ
  growthMultiplier : ℚ
  volatility : ℚ
deriving DecidableEq, Repr

/-- PLATFORMS table from config.ts. -/
def PLATFORMS : PlatformKey → PlatformData
  | .SWITCH => ⟨1, 1, 0.05⟩
  | .YETUBE => ⟨1.3, 1.5, 0.08⟩
  | .OHFANS => ⟨2.5, 0.5, 0.03⟩

/-- Numeric fields of one GENRES entry used by the simulation. -/
structure GenreData where
  baseRevenueMultiplier : ℚ
  growthRate : ℚ
deriving DecidableEq, Repr

/-- GENRES table from config.ts (revenue and growth fields). -/
def GENRES : GenreKey → GenreData
  | .GAMING => ⟨1, 1⟩
  | .VTUBER => ⟨1.1, 0.7⟩
  | .IRL => ⟨0.9, 1.4⟩
  | .MUSIC => ⟨0.8, 0.6⟩
  | .ASMR => ⟨1.2, 0.5⟩
  | .REACTION => ⟨1, 1.6⟩
  | .EDUCATIONAL => ⟨0.7, 0.4⟩
  | .FITNESS => ⟨1, 0.9⟩
  | .CREATIVE => ⟨0.8, 0.5⟩
  | .VARIETY => ⟨0.9, 1.1⟩

/-- The platformAffinity map of each GENRES entry from config.ts. -/
def platformAffinity : GenreKey → PlatformKey → ℚ
  | .GAMING, .SWITCH => 1.2 | .GAMING, .YETUBE => 1 | .GAMING, .OHFANS => 0.5
  | .VTUBER, .SWITCH => 1.3 | .VTUBER, .YETUBE => 1.1 | .VTUBER, .OHFANS => 0.8
  | .IRL, .SWITCH => 1.2 | .IRL, .YETUBE => 0.8 | .IRL, .OHFANS => 1
  | .MUSIC, .SWITCH => 0.8 | .MUSIC, .YETUBE => 1.5 | .MUSIC, .OHFANS => 0.6
  | .ASMR, .SWITCH => 0.7 | .ASMR, .YETUBE => 1 | .ASMR, .OHFANS => 1.8
  | .REACTION, .SWITCH => 0.9 | .REACTION, .YETUBE => 1.4 | .REACTION, .OHFANS => 0.4
  | .EDUCATIONAL, .SWITCH => 0.5 | .EDUCATIONAL, .YETUBE => 1.6 | .EDUCATIONAL, .OHFANS => 0.3
  | .FITNESS, .SWITCH => 0.6 | .FITNESS, .YETUBE => 1.3 | .FITNESS, .OHFANS => 1.4
  | .CREATIVE, .SWITCH => 1.1 | .CREATIVE, .YETUBE => 1 | .CREATIVE, .OHFANS => 1.2
  | .VARIETY, .SWITCH => 1 | .VARIETY, .YETUBE => 1 | .VARIETY, .OHFANS => 0.8

/-- StreamerStats from src/entities/Streamer.ts. -/
structure StreamerStats where
  charisma : ℚ
  consistency : ℚ
  dramaRisk : ℚ
  skill : ℚ
  adaptability : ℚ
  loyalty : ℚ
  ambition : ℚ
deriving DecidableEq, Repr

/-- Numeric core of StreamerData from src/entities/Streamer.ts. -/
structure Streamer where
  genre : GenreKey
  platform : PlatformKey
  followers : ℚ
  stats : StreamerStats
  burnout : ℚ
  revenueSplit : ℚ
  age : ℚ
  experienceYears : ℚ
deriving DecidableEq, Repr

/-- PlatformAllocation from src/entities/WeeklySchedule.ts. -/
structure PlatformAllocation where
  platform : PlatformKey
  hoursPerWeek : ℚ
deriving DecidableEq, Repr

/-- WeeklySchedule from src/entities/WeeklySchedule.ts (streamerId and
sponsorshipOptIn play no role in the functions embedded here). -/
structure WeeklySchedule where
  totalHoursPerWeek : ℚ
  platformAllocations : List PlatformAllocation
  takingBreak : Bool
deriving DecidableEq, Repr

/-- Math.floor of a rational, returned as a rational, mirroring how the
TypeScript code keeps floored values in ordinary number variables. -/
def jsFloor (x : ℚ) : ℚ := (⌊x⌋ : ℤ)

/-- Math.round of a rational (round half toward positive infinity),
returned as a rational. -/
def jsRound (x : ℚ) : ℚ := (⌊x + 1/2⌋ : ℤ)

/-- Math.max on rationals, written with an explicit comparison so that
concrete instances evaluate inside the kernel. -/
def jsMax (x y : ℚ) : ℚ := if x ≤ y then y else x

/-- Math.min on rationals, written with an explicit comparison so that
concrete instances evaluate inside the kernel. -/
def jsMin (x y : ℚ) : ℚ := if x ≤ y then x else y

/-- Streamer.getBurnoutPenalty from src/entities/Streamer.ts: the piecewise
revenue penalty multiplier with a steeper curve at higher burnout. -/
def getBurnoutPenalty (burnout : ℚ) : ℚ :=
  if burnout ≤ 50 then 1 - burnout / 50 * 0.1
  else if burnout ≤ 70 then 0.9 - (burnout - 50) / 20 * 0.15
  else if burnout ≤ 90 then 0.75 - (burnout - 70) / 20 * 0.2
  else 0.55 - (burnout - 90) / 10 * 0.15

/-- Revenue contributed by one platform allocation inside
Streamer.getWeeklyStreamingRevenue (the body of the for loop). -/
def weeklyAllocationRevenue (s : Streamer) (a : PlatformAllocation) : ℚ :=
  let platformData := PLATFORMS a.platform
  let genreData := GENRES s.genre
  let baseRevenue := s.followers / 1000 * a.hoursPerWeek * 0.5
  let platformMult := platformData.revenueMultiplier
  let genreMult := genreData.baseRevenueMultiplier
  let affinityBonus := platformAffinity s.genre a.platform
  let charismaBonus := 1 + (s.stats.charisma - 5) * 0.08
  let skillBonus := 1 + (s.stats.skill - 5) * 0.06
  let consistencyBonus := 1 + (s.stats.consistency - 5) * 0.04
  let burnoutPenalty := getBurnoutPenalty s.burnout
  let hoursEfficiency :=
    if a.hoursPerWeek > 45 then 1 - (a.hoursPerWeek - 45) * 0.015 else 1
  baseRevenue * platformMult * genreMult * affinityBonus
    * charismaBonus * skillBonus * consistencyBonus * burnoutPenalty * hoursEfficiency

/-- Streamer.getWeeklyStreamingRevenue from src/entities/Streamer.ts:
zero on a full break, otherwise the floored agency cut of the summed
per-allocation revenue (allocations under the 5 hour minimum are skipped). -/
def getWeeklyStreamingRevenue (s : Streamer) (schedule : WeeklySchedule) : ℚ :=
  if schedule.takingBreak then 0
  else
    let totalRevenue :=
      (schedule.platformAllocations.map fun a =>
        if a.hoursPerWeek < 5 then 0 else weeklyAllocationRevenue s a).sum
    jsFloor (totalRevenue * s.revenueSplit)

/-- The default 30 hour single-platform schedule built inside
Streamer.getEstimatedWeeklyRevenue when no schedule is passed. -/
def defaultSchedule (s : Streamer) : WeeklySchedule :=
  { totalHoursPerWeek := 30
    platformAllocations := [⟨s.platform, 30⟩]
    takingBreak := false }

/-- Streamer.getEstimatedWeeklyRevenue with no schedule argument. -/
def getEstimatedWeeklyRevenue (s : Streamer) : ℚ :=
  getWeeklyStreamingRevenue s (defaultSchedule s)

/-- Streamer.calculateBurnoutChange from src/entities/Streamer.ts:
a flat -25 on a full break (CONFIG.BREAK_RECOVERY_RATE), otherwise an
hours-driven change scaled by consistency minus the natural recovery of 3. -/
def calculateBurnoutChange (s : Streamer) (schedule : WeeklySchedule) : ℚ :=
  if schedule.takingBreak then -25
  else
    let burnoutChange0 : ℚ :=
      if schedule.totalHoursPerWeek > 45 then (schedule.totalHoursPerWeek - 45) * 1.5
      else if schedule.totalHoursPerWeek < 15 then -5
      else 0
    let consistencyFactor := 1 + (s.stats.consistency - 5) * 0.1
    burnoutChange0 * consistencyFactor - 3

/-- Age growth modifier inside Streamer.calculateWeeklyGrowth
(1.15x at 18 decaying to baseline, then penalties floored at 0.75x). -/
def ageModifier (age : ℚ) : ℚ :=
  if age ≤ 25 then 1.15 - (age - 18) * 0.02
  else if age ≤ 35 then 1
  else if age ≤ 45 then 1 - (age - 35) * 0.01
  else jsMax 0.75 (0.9 - (age - 45) * 0.01)

/-- JavaScript Map.set on an association list: update the value of an
existing key in place, otherwise append the new entry. -/
def setEntry (m : List (PlatformKey × ℚ)) (k : PlatformKey) (v : ℚ) :
    List (PlatformKey × ℚ) :=
  if m.any (fun e => e.1 = k) then m.map (fun e => if e.1 = k then (k, v) else e)
  else m ++ [(k, v)]

/-- Follower change computed for one allocation inside
Streamer.calculateWeeklyGrowth.  The Math.random volatility draw is the
explicit argument vol, and Math.log10 is the explicit oracle lg. -/
def allocGrowthChange (s : Streamer) (totalHours : ℚ) (a : PlatformAllocation)
    (vol : ℚ) (lg : ℚ → ℚ) : ℚ :=
  let platformData := PLATFORMS a.platform
  let genreData := GENRES s.genre
  let hoursRatio := jsMin (a.hoursPerWeek / 60) 1
  let baseGrowth := 0.01 + hoursRatio * 0.02
  let g1 := baseGrowth * platformData.growthMultiplier * genreData.growthRate
    * platformAffinity s.genre a.platform
  let g2 := g1 + (s.stats.charisma - 5) * 0.005 + (s.stats.adaptability - 5) * 0.003
    + (s.stats.ambition - 5) * 0.004
  let g3 := g2 * getBurnoutPenalty s.burnout
  let g4 := g3 + (vol - 0.5) * platformData.volatility * 2
  let g5 := g4 * ageModifier s.age
  let g6 :=
    if s.followers > 100000 then g5 - lg (s.followers / 100000) * 0.01
    else if s.followers < 10000 then g5 * 1.3
    else g5
  let platformWeight := a.hoursPerWeek / totalHours
  jsFloor (s.followers * g6 * platformWeight)

/-- Loop of Streamer.calculateWeeklyGrowth: one Math.random draw is consumed
per allocation that passes the 5 hour minimum, results land in a Map keyed
by platform. -/
def weeklyGrowthAux (s : Streamer) (totalHours : ℚ) (rand : ℕ → ℚ) (lg : ℚ → ℚ) :
    List PlatformAllocation → ℕ → List (PlatformKey × ℚ) → List (PlatformKey × ℚ)
  | [], _, acc => acc
  | a :: rest, i, acc =>
    if a.hoursPerWeek < 5 then weeklyGrowthAux s totalHours rand lg rest i acc
    else weeklyGrowthAux s totalHours rand lg rest (i + 1)
      (setEntry acc a.platform (allocGrowthChange s totalHours a (rand i) lg))

/-- Streamer.calculateWeeklyGrowth from src/entities/Streamer.ts:
empty on a full break, otherwise the per-platform floored follower changes. -/
def calculateWeeklyGrowth (s : Streamer) (schedule : WeeklySchedule)
    (rand : ℕ → ℚ) (lg : ℚ → ℚ) : List (PlatformKey × ℚ) :=
  if schedule.takingBreak then []
  else weeklyGrowthAux s schedule.totalHoursPerWeek rand lg
    schedule.platformAllocations 0 []

/-- Views computed for one allocation inside Streamer.getWeeklyViews,
with its two Math.random draws passed explicitly. -/
def allocViews (s : Streamer) (a : PlatformAllocation) (r1 r2 : ℚ) : ℚ :=
  let hoursRatio := a.hoursPerWeek / 30
  let baseViews := s.followers * (3 + r1 * 4) * hoursRatio
  let platformData := PLATFORMS a.platform
  let volatilityFactor := 1 + (r2 - 0.5) * platformData.volatility * 10
  let charismaBonus := 1 + (s.stats.charisma - 5) * 0.1
  jsFloor (baseViews * volatilityFactor * charismaBonus)

/-- Loop of Streamer.getWeeklyViews: two Math.random draws per passing
allocation. -/
def weeklyViewsAux (s : Streamer) (rand : ℕ → ℚ) :
    List PlatformAllocation → ℕ → List (PlatformKey × ℚ) → List (PlatformKey × ℚ)
  | [], _, acc => acc
  | a :: rest, i, acc =>
    if a.hoursPerWeek < 5 then weeklyViewsAux s rand rest i acc
    else weeklyViewsAux s rand rest (i + 1)
      (setEntry acc a.platform (allocViews s a (rand (2 * i)) (rand (2 * i + 1))))

/-- Streamer.getWeeklyViews from src/entities/Streamer.ts. -/
def getWeeklyViews (s : Streamer) (schedule : WeeklySchedule) (rand : ℕ → ℚ) :
    List (PlatformKey × ℚ) :=
  if schedule.takingBreak then []
  else weeklyViewsAux s rand schedule.platformAllocations 0 []

/-- WeeklyGrowthResult from src/entities/Streamer.ts. -/
structure WeeklyGrowthResult where
  followersBefore : ℚ
  followersAfter : ℚ
  followerChange : ℚ
  burnoutBefore : ℚ
  burnoutAfter : ℚ
  burnoutChange : ℚ
  viewsGenerated : ℚ
deriving DecidableEq, Repr

/-- Streamer.applyWeeklyChanges from src/entities/Streamer.ts: sums the
per-platform growth and views, then applies the clamped follower and
burnout updates.  Returns the mutated streamer together with the
WeeklyGrowthResult the method returns. -/
def applyWeeklyChanges (s : Streamer) (schedule : WeeklySchedule)
    (growthRand viewsRand : ℕ → ℚ) (lg : ℚ → ℚ) : Streamer × WeeklyGrowthResult :=
  let followersBefore := s.followers
  let burnoutBefore := s.burnout
  let growthByPlatform := calculateWeeklyGrowth s schedule growthRand lg
  let viewsByPlatform := getWeeklyViews s schedule viewsRand
  let burnoutChange := calculateBurnoutChange s schedule
  let totalFollowerChange := (growthByPlatform.map Prod.snd).sum
  let totalViews := (viewsByPlatform.map Prod.snd).sum
  let followers1 := jsMax 10 (s.followers + totalFollowerChange)
  let burnout1 := jsMax 0 (jsMin 100 (s.burnout + burnoutChange))
  let s1 := { s with followers := followers1, burnout := burnout1 }
  (s1,
    { followersBefore
      followersAfter := followers1
      followerChange := followers1 - followersBefore
      burnoutBefore
      burnoutAfter := burnout1
      burnoutChange := burnout1 - burnoutBefore
      viewsGenerated := totalViews })

/-- Trend category literals from src/world/WorldState.ts WorldTrend. -/
inductive TrendCategory | platform | genre | economic | global
deriving DecidableEq, Repr

/-- WorldTrend from src/world/WorldState.ts. -/
structure Trend where
  id : String
  name : String
  category : TrendCategory
  affectedPlatforms : List PlatformKey
  affectedGenres : List GenreKey
  followerMultiplier : ℚ
  revenueMultiplier : ℚ
  durationWeeks : ℤ
  weeksRemaining : ℤ
deriving DecidableEq, Repr

/-- Multiplier kind argument of WorldSimulator.getTrendMultiplier. -/
inductive MultKind | follower | revenue
deriving DecidableEq, Repr

/-- Does a trend apply to a streamer, per the body of
WorldSimulator.getTrendMultiplier: platform match, genre match, or a
global/economic trend with no filters. -/
def trendApplies (platform : PlatformKey) (genre : GenreKey) (t : Trend) : Bool :=
  (!t.affectedPlatforms.isEmpty && t.affectedPlatforms.contains platform)
  || (!t.affectedGenres.isEmpty && t.affectedGenres.contains genre)
  || (t.affectedPlatforms.isEmpty && t.affectedGenres.isEmpty)

/-- WorldSimulator.getTrendMultiplier: the product of the multipliers of all
applicable trends. -/
def getTrendMultiplier (platform : PlatformKey) (genre : GenreKey)
    (trends : List Trend) (kind : MultKind) : ℚ :=
  trends.foldl (fun m t =>
    if trendApplies platform genre t then
      m * (match kind with | .follower => t.followerMultiplier | .revenue => t.revenueMultiplier)
    else m) 1

/-- StreamerWorldData from src/world/WorldState.ts: the world extension of
StreamerData with career tracking fields. -/
structure WStreamer extends Streamer where
  agencyId : Option String
  careerWeeks : ℕ
  peakFollowers : ℚ
  weeklyImpressions : ℚ
  lastWeekFollowers : ℚ
  consecutiveBurnoutWeeks : ℕ
  consecutiveDeclineWeeks : ℕ
  retiredWeek : Option ℕ
deriving DecidableEq, Repr

/-- Age growth modifier from WorldSimulator.calculateWeeklyGrowth
(the world variant: 1.2x at 18, floored at 0.75x). -/
def ageGrowthModifierW (age : ℚ) : ℚ :=
  if age ≤ 25 then 1.2 - (age - 18) * 0.02
  else if age ≤ 35 then 1
  else if age ≤ 45 then 1 - (age - 35) * 0.01
  else jsMax 0.75 (0.9 - (age - 45) * 0.01)

/-- WorldSimulator.calculateWeeklyGrowth from src/world/WorldSimulator.ts:
the weekly growth rate for a world streamer; variance is the Math.random
draw and lg stands for Math.log10. -/
def calculateWeeklyGrowthW (s : WStreamer) (trends : List Trend)
    (variance : ℚ) (lg : ℚ → ℚ) : ℚ :=
  let platform := PLATFORMS s.platform
  let genre := GENRES s.genre
  let g0 : ℚ := 0.02 * platform.growthMultiplier * genre.growthRate
  let charismaBonus := (s.stats.charisma - 5) * 0.01
  let consistencyBonus := (s.stats.consistency - 5) * 0.005
  let ambitionBonus := (s.stats.ambition - 5) * 0.008
  let adaptabilityBonus := (s.stats.adaptability - 5) * 0.005
  let g1 := g0 + charismaBonus + consistencyBonus + ambitionBonus + adaptabilityBonus
  let g2 := if s.burnout > 50 then g1 - (s.burnout - 50) / 100 * 0.05 else g1
  let g3 := g2 * getTrendMultiplier s.platform s.genre trends .follower
  let g4 := g3 + (variance - 0.5) * 2 * platform.volatility
  let g5 := if s.followers > 100000 then g4 - lg (s.followers / 100000) * 0.01 else g4
  let g6 := if s.followers < 10000 then g5 * 1.5 else g5
  g6 * ageGrowthModifierW s.age

/-- WorldSimulator.calculateBurnoutChange from src/world/WorldSimulator.ts:
consistency and ambition accumulation, a flat recovery of 2, and pressure
above 500000 followers. -/
def calculateBurnoutChangeW (s : WStreamer) : ℚ :=
  let consistencyBurnout := (s.stats.consistency - 5) * 0.5
  let ambitionBurnout := (s.stats.ambition - 5) * 0.3
  let naturalRecovery : ℚ := -2
  let pressureBurnout : ℚ := if s.followers > 500000 then 1 else 0
  consistencyBurnout + ambitionBurnout + naturalRecovery + pressureBurnout

/-- Body of the per-streamer loop of WorldSimulator.simulateAllStreamers:
growth application with the 10 follower floor, peak and decline tracking,
impressions, the clamped burnout update, burnout streak tracking and career
advancement.  The Math.random draws are rand 0 (growth variance) and
rand 1 (impressions), lg stands for Math.log10. -/
def simulateStreamerStep (s : WStreamer) (trends : List Trend)
    (rand : ℕ → ℚ) (lg : ℚ → ℚ) : WStreamer :=
  let growth := calculateWeeklyGrowthW s trends (rand 0) lg
  let lastWeekFollowers := s.followers
  let followers1 := jsMax 10 (jsFloor (s.followers * (1 + growth)))
  let peakFollowers1 := if followers1 > s.peakFollowers then followers1 else s.peakFollowers
  let consecutiveDeclineWeeks1 :=
    if followers1 < lastWeekFollowers then s.consecutiveDeclineWeeks + 1 else 0
  let baseImpressions := followers1 * (3 + rand 1 * 4)
  let impressionMultiplier := getTrendMultiplier s.platform s.genre trends .follower
  let weeklyImpressions1 := jsFloor (baseImpressions * impressionMultiplier)
  let burnoutChange := calculateBurnoutChangeW { s with followers := followers1 }
  let burnout1 := jsMax 0 (jsMin 100 (s.burnout + burnoutChange))
  let consecutiveBurnoutWeeks1 :=
    if burnout1 ≥ 90 then s.consecutiveBurnoutWeeks + 1 else 0
  let careerWeeks1 := s.careerWeeks + 1
  { s with
    followers := followers1
    lastWeekFollowers := lastWeekFollowers
    peakFollowers := peakFollowers1
    consecutiveDeclineWeeks := consecutiveDeclineWeeks1
    weeklyImpressions := weeklyImpressions1
    burnout := burnout1
    consecutiveBurnoutWeeks := consecutiveBurnoutWeeks1
    careerWeeks := careerWeeks1
    experienceYears := (careerWeeks1 / 52 : ℕ) }

/-- Streamer-record part of WorldSimulator.processComeback: reinstatement
resets retirement, sets followers to 20 percent of peak (floored), zeroes
burnout and clears both streak counters. -/
def processComeback (s : WStreamer) : WStreamer :=
  { s with
    retiredWeek := none
    followers := jsFloor (s.peakFollowers * 0.2)
    burnout := 0
    consecutiveBurnoutWeeks := 0
    consecutiveDeclineWeeks := 0 }

/-- Rookie follower roll from WorldSimulator.generateNewStreamer:
Math.floor(50 + Math.random() * 450). -/
def rookieFollowers (r : ℚ) : ℚ := jsFloor (50 + r * 450)

/-- Decrement of one trend counter (trends[i].weeksRemaining--). -/
def decTrend (t : Trend) : Trend := { t with weeksRemaining := t.weeksRemaining - 1 }

/-- Expiry loop of WorldSimulator.updateTrends: the backwards for loop
decrements every counter and splices out trends at or below zero, pushing
them onto the ended list in the order visited (from the back of the
array).  Returns (surviving active trends, ended trends). -/
def coreTrends : List Trend → List Trend × List Trend
  | [] => ([], [])
  | t :: rest =>
    let (act, ended) := coreTrends rest
    let t1 := decTrend t
    if t1.weeksRemaining ≤ 0 then (act, ended ++ [t1]) else (t1 :: act, ended)

/-- WorldSimulator.updateTrends: run the expiry loop, then with fewer than
3 active trends and a start roll under 0.20 push one freshly generated
trend.  Returns (active trends after, ended list, started list). -/
def updateTrends (trends : List Trend) (startRoll : ℚ) (newTrend : Trend) :
    List Trend × List Trend × List Trend :=
  let (act, ended) := coreTrends trends
  if act.length < 3 ∧ startRoll < 0.20 then (act ++ [newTrend], ended, [newTrend])
  else (act, ended, [])

/-- Template entries of WorldSimulator.generateRandomTrend (name, category,
filters, multipliers, duration); description strings are omitted. -/
structure TrendTemplate where
  name : String
  category : TrendCategory
  affectedPlatforms : List PlatformKey
  affectedGenres : List GenreKey
  followerMultiplier : ℚ
  revenueMultiplier : ℚ
  durationWeeks : ℤ
deriving DecidableEq, Repr

/-- The trendTemplates array from WorldSimulator.generateRandomTrend. -/
def trendTemplates : List TrendTemplate :=
  [ ⟨"Switch Surge", .platform, [.SWITCH], [], 1.3, 1.1, 3⟩,
    ⟨"YeTube Algorithm Boost", .platform, [.YETUBE], [], 1.5, 1.2, 2⟩,
    ⟨"OhFans Premium Wave", .platform, [.OHFANS], [], 1.2, 1.5, 4⟩,
    ⟨"Gaming Renaissance", .genre, [], [.GAMING], 1.4, 1.2, 4⟩,
    ⟨"VTuber Explosion", .genre, [], [.VTUBER], 1.5, 1.3, 3⟩,
    ⟨"ASMR Goes Mainstream", .genre, [], [.ASMR], 1.3, 1.2, 5⟩,
    ⟨"Music Streaming Boom", .genre, [], [.MUSIC], 1.4, 1.3, 3⟩,
    ⟨"IRL Adventure Craze", .genre, [], [.IRL], 1.6, 1.1, 2⟩,
    ⟨"Sponsorship Boom", .economic, [], [], 1, 1.3, 4⟩,
    ⟨"Ad Revenue Dip", .economic, [], [], 1, 0.8, 3⟩,
    ⟨"Streaming Awards Season", .global, [], [], 1.15, 1.1, 2⟩ ]

/-- One base-36 digit character as produced by Number.toString(36). -/
def base36Char (n : ℕ) : Char :=
  if n < 10 then Char.ofNat (48 + n) else Char.ofNat (87 + n)

/-- The 9 base-36 fraction digits taken by
Math.random().toString(36).substr(2, 9) from a draw q in the unit interval. -/
def base36Suffix (q : ℚ) : String :=
  String.mk ((List.range 9).map fun i => base36Char ((⌊q * 36 ^ (i + 1)⌋).toNat % 36))

/-- The template-generated trend id of WorldSimulator.generateRandomTrend.
The id embeds Date.now() (the now argument) followed by the base-36
rendering of a Math.random() draw. -/
def trendId (now : ℕ) (q : ℚ) : String :=
  "trend_" ++ toString now ++ "_" ++ base36Suffix q

/-- WorldSimulator.generateRandomTrend: pick a template uniformly with the
draw r1, then build the trend with an id derived from Date.now() and a
second draw r2. -/
def generateRandomTrend (now : ℕ) (r1 r2 : ℚ) : Trend :=
  let template := trendTemplates.getD (⌊r1 * 11⌋).toNat
    ⟨"Switch Surge", .platform, [.SWITCH], [], 1.3, 1.1, 3⟩
  { id := trendId now r2
    name := template.name
    category := template.category
    affectedPlatforms := template.affectedPlatforms
    affectedGenres := template.affectedGenres
    followerMultiplier := template.followerMultiplier
    revenueMultiplier := template.revenueMultiplier
    durationWeeks := template.durationWeeks
    weeksRemaining := template.durationWeeks }

/-- The trend stage of WorldSimulator.simulateWeek, with the ambient
Math.random stream rng (draw 0 the start roll, draws 1 and 2 consumed by
generateRandomTrend) and the ambient clock value now made explicit. -/
def updateTrendsRand (trends : List Trend) (now : ℕ) (rng : ℕ → ℚ) :
    List Trend × List Trend × List Trend :=
  updateTrends trends (rng 0) (generateRandomTrend now (rng 1) (rng 2))

/-- ContractTerms from src/entities/Contract.ts. -/
structure ContractTerms where
  signingBonus : ℚ
  revenueSplit : ℚ
  lengthDays : ℚ
  exclusivity : Bool
deriving DecidableEq, Repr

/-- Streamer mood literals of NegotiationState from src/entities/Contract.ts. -/
inductive Mood | eager | neutral | hesitant | insulted
deriving DecidableEq, Repr

/-- NegotiationState from src/entities/Contract.ts. -/
structure NegotiationState where
  round : ℕ
  maxRounds : ℕ
  streamerMood : Mood
  currentOffer : ContractTerms
  streamerExpectations : ContractTerms
  lastCounterOffer : Option ContractTerms
deriving DecidableEq, Repr

/-- Contract.generateExpectations from src/entities/Contract.ts. -/
def generateExpectations (followers charisma consistency : ℚ) : ContractTerms :=
  let baseBonus := jsFloor (followers / 50) + 200
  let charismaMultiplier := 1 + (charisma - 5) * 0.1
  let statAvg := (charisma + consistency) / 2
  let desiredAgencyCut := jsMax 0.2 (jsMin 0.5 (0.5 - (statAvg - 5) * 0.03))
  let baseDays : ℚ := if statAvg > 7 then 30 else if statAvg > 4 then 60 else 90
  { signingBonus := jsFloor (baseBonus * charismaMultiplier)
    revenueSplit := jsRound (desiredAgencyCut * 100) / 100
    lengthDays := baseDays
    exclusivity := followers < 10000 }

/-- Contract.evaluateOffer from src/entities/Contract.ts: the 0 to 100
streamer-side deal score with 50 neutral. -/
def evaluateOffer (offer expectations : ContractTerms) : ℚ :=
  let score0 : ℚ := 50
  let bonusDiff := (offer.signingBonus - expectations.signingBonus) / expectations.signingBonus
  let score1 := score0 + bonusDiff * 30
  let splitDiff := (expectations.revenueSplit - offer.revenueSplit) * 100
  let score2 := score1 + splitDiff * 2
  let lengthDiff := (expectations.lengthDays - offer.lengthDays) / expectations.lengthDays
  let score3 := score2 + lengthDiff * 15
  let score4 :=
    if !expectations.exclusivity && offer.exclusivity then score3 - 15
    else if expectations.exclusivity && !offer.exclusivity then score3 + 10
    else score3
  jsMax 0 (jsMin 100 score4)

/-- Contract.getMood from src/entities/Contract.ts. -/
def getMood (score : ℚ) : Mood :=
  if score ≥ 70 then .eager
  else if score ≥ 45 then .neutral
  else if score ≥ 25 then .hesitant
  else .insulted

/-- Contract.willAccept from src/entities/Contract.ts: the acceptance
threshold of 55 drops by 5 per round. -/
def willAccept (score : ℚ) (round : ℕ) : Bool :=
  score ≥ 55 - (round : ℚ) * 5

/-- Contract.willWalk from src/entities/Contract.ts: round-specific walk
floors of 15, 20 and 30. -/
def willWalk (score : ℚ) (round : ℕ) : Bool :=
  if round = 1 ∧ score < 15 then true
  else if round = 2 ∧ score < 20 then true
  else if 3 ≤ round ∧ score < 30 then true
  else false

/-- Contract.generateCounterOffer from src/entities/Contract.ts: blend of
the current offer and the expectations, the blend weight growing with the
round. -/
def generateCounterOffer (currentOffer expectations : ContractTerms) (round : ℕ) :
    ContractTerms :=
  let blend : ℚ := 0.3 + (round : ℚ) * 0.1
  { signingBonus := jsFloor
      (currentOffer.signingBonus * blend + expectations.signingBonus * (1 - blend) * 1.1)
    revenueSplit := jsRound
      ((currentOffer.revenueSplit * blend + expectations.revenueSplit * (1 - blend) * 0.95)
        * 100) / 100
    lengthDays := jsFloor
      (currentOffer.lengthDays * blend + expectations.lengthDays * (1 - blend))
    exclusivity := if 2 < round then currentOffer.exclusivity else expectations.exclusivity }

/-- Outcomes of one offer submission in ScoutScene.makeOffer.  cannotAfford
models the early return that only re-renders when the signing bonus exceeds
the player funds. -/
inductive NegotiationOutcome | cannotAfford | walked | accepted | countered
deriving DecidableEq, Repr

/-- ScoutScene.makeOffer from src/scenes/ScoutScene.ts without the UI
calls: afford check, then score, mood and offer recording, then walk
check, then accept check, otherwise a counter-offer that advances the
round (on the final rounds the counter also replaces the current offer). -/
def makeOffer (playerMoney : ℚ) (state : NegotiationState) (terms : ContractTerms) :
    NegotiationOutcome × NegotiationState :=
  if terms.signingBonus > playerMoney then (.cannotAfford, state)
  else
    let score := evaluateOffer terms state.streamerExpectations
    let mood := getMood score
    let state1 := { state with streamerMood := mood, currentOffer := terms }
    if willWalk score state.round then (.walked, state1)
    else if willAccept score state.round then (.accepted, state1)
    else
      let counter := generateCounterOffer terms state.streamerExpectations state.round
      if state.round ≥ state.maxRounds then
        (.countered, { state1 with
          lastCounterOffer := some counter
          currentOffer := counter
          round := state.round + 1 })
      else
        (.countered, { state1 with
          lastCounterOffer := some counter
          currentOffer := terms
          round := state.round + 1 })

/-- Per-streamer revenue term inside AIAgencyManager.calculateWeeklyRevenue
from src/world/AIAgency.ts: 30 default hours on the primary platform, the
platform, genre and affinity multipliers, charisma and skill bonuses, and
a linear burnout penalty (the comment in the source calls the stat bonuses
simplified from the player formula). -/
def aiStreamerRevenue (s : Streamer) : ℚ :=
  let hoursPerWeek : ℚ := 30
  let platformData := PLATFORMS s.platform
  let genreData := GENRES s.genre
  let baseRevenue := s.followers / 1000 * hoursPerWeek * 0.5
  let platformMult := platformData.revenueMultiplier
  let genreMult := genreData.baseRevenueMultiplier
  let affinityBonus := platformAffinity s.genre s.platform
  let charismaBonus := 1 + (s.stats.charisma - 5) * 0.08
  let skillBonus := 1 + (s.stats.skill - 5) * 0.06
  let burnoutPenalty := 1 - s.burnout / 100 * 0.3
  baseRevenue * platformMult * genreMult * affinityBonus * charismaBonus
    * skillBonus * burnoutPenalty

/-- Roster total of AIAgencyManager.calculateWeeklyRevenue: the agency
keeps a 50 percent cut of each rostered streamer and floors the weekly sum. -/
def aiWeeklyRevenue (roster : List Streamer) : ℚ :=
  jsFloor ((roster.map fun s => aiStreamerRevenue s * 0.5).sum)

/-- AIAgencyManager.estimateSigningCost from src/world/AIAgency.ts. -/
def estimateSigningCost (s : Streamer) : ℚ :=
  let followerValue := s.followers / 100
  let charismaValue := s.stats.charisma * 80
  let skillValue := s.stats.skill * 60
  let consistencyValue := s.stats.consistency * 40
  let ambitionMultiplier := 1 + (s.stats.ambition - 5) * 0.15
  let loyaltyDiscount := (10 - s.stats.loyalty) * 30
  let dramaAdjustment :=
    if s.stats.dramaRisk > 7 then s.stats.dramaRisk * 20 else -(s.stats.dramaRisk * 30)
  let ageMultiplier0 : ℚ :=
    if s.age < 25 then 0.85 + (s.age - 18) * 0.02
    else if s.age ≤ 34 then 1
    else if s.age ≤ 44 then 0.95 - (s.age - 35) * 0.01
    else jsMax 0.55 (0.85 - (s.age - 45) * 0.02)
  let experienceBonus := jsMin (s.experienceYears * 0.03) 0.2
  let ageMultiplier := jsMin 1 (ageMultiplier0 + experienceBonus)
  let baseCost := followerValue + charismaValue + skillValue + consistencyValue
    - loyaltyDiscount + dramaAdjustment
  let cost := baseCost * ambitionMultiplier * ageMultiplier
  jsFloor (jsMax 500 (jsMin cost 100000))

/-- AIAgencyData from src/world/WorldState.ts (the fields the embedded
operations read and write). -/
structure Agency where
  id : String
  roster : List String
  money : ℚ
deriving DecidableEq, Repr

/-- WorldStateData from src/world/WorldState.ts: streamers as the keyed
record, the agency array, the free-agent and retired id arrays and the
week counter. -/
structure World where
  streamers : String → Option WStreamer
  agencies : List Agency
  freeAgentIds : List String
  retiredIds : List String
  weekNumber : ℕ

/-- Push a streamer id onto the roster of the first agency with matching
id, mirroring agencies.find followed by roster.push in
WorldState.signStreamerToAgency. -/
def pushRoster : List Agency → String → String → List Agency
  | [], _, _ => []
  | a :: rest, aid, sid =>
    if a.id = aid then { a with roster := a.roster ++ [sid] } :: rest
    else a :: pushRoster rest aid sid

/-- Erase one occurrence of a streamer id from the roster of the first
agency with matching id, mirroring agencies.find followed by
roster.indexOf and splice in WorldState.releaseStreamerFromAgency. -/
def eraseFromRoster : List Agency → String → String → List Agency
  | [], _, _ => []
  | a :: rest, aid, sid =>
    if a.id = aid then { a with roster := a.roster.erase sid } :: rest
    else a :: eraseFromRoster rest aid sid

/-- WorldState.signStreamerToAgency from src/world/WorldState.ts: fails on
an unknown streamer, a non-null employer, or an unknown agency; otherwise
removes the id from the free agents, sets the employer and pushes the id
onto the roster. -/
def signStreamerToAgency (sid aid : String) (w : World) : Bool × World :=
  match w.streamers sid with
  | none => (false, w)
  | some s =>
    if s.agencyId ≠ none then (false, w)
    else
      match w.agencies.find? (fun a => a.id = aid) with
      | none => (false, w)
      | some _ =>
        (true,
          { w with
            freeAgentIds := w.freeAgentIds.erase sid
            streamers := fun k =>
              if k = sid then some { s with agencyId := some aid } else w.streamers k
            agencies := pushRoster w.agencies aid sid })

/-- WorldState.releaseStreamerFromAgency from src/world/WorldState.ts:
fails on an unknown streamer or a null employer; otherwise erases the id
from the employing agency roster (when that agency exists), nulls the
employer and pushes the id onto the free agents. -/
def releaseStreamerFromAgency (sid : String) (w : World) : Bool × World :=
  match w.streamers sid with
  | none => (false, w)
  | some s =>
    match s.agencyId with
    | none => (false, w)
    | some aid =>
      (true,
        { w with
          agencies := eraseFromRoster w.agencies aid sid
          streamers := fun k =>
            if k = sid then some { s with agencyId := none } else w.streamers k
          freeAgentIds := w.freeAgentIds ++ [sid] })

/-- WorldSimulator.retireStreamer from src/world/WorldSimulator.ts: mark
the retirement week, release from the employing agency unless the employer
is the player (the source guard is the JavaScript truthiness test
streamer.agencyId && streamer.agencyId !== 'player', so an empty-string id
also skips the release), remove from the free agents and append to the
retired ids. -/
def retireStreamer (sid : String) (w : World) : World :=
  match w.streamers sid with
  | none => w
  | some s =>
    let w1 := { w with streamers := fun k =>
      if k = sid then some { s with retiredWeek := some w.weekNumber } else w.streamers k }
    let w2 :=
      match s.agencyId with
      | some aid =>
        if aid ≠ "" ∧ aid ≠ "player" then (releaseStreamerFromAgency sid w1).2 else w1
      | none => w1
    { w2 with
      freeAgentIds := w2.freeAgentIds.erase sid
      retiredIds := w2.retiredIds ++ [sid] }

/-- Employer view of a world: the agencyId of the streamer stored under a
given id, wrapped so that a missing streamer is distinguishable. -/
def employerView (w : World) (sid : String) : Option (Option String) :=
  (w.streamers sid).map (fun s => s.agencyId)

/-- Roster bidirectional consistency: agency ids are pairwise distinct,
every id in a roster names a stored streamer employed by exactly that
agency, and no id occurs twice across the rosters. -/
def Consistent (w : World) : Prop :=
  (w.agencies.map Agency.id).Nodup
  ∧ (∀ a ∈ w.agencies, ∀ sid ∈ a.roster, employerView w sid = some (some a.id))
  ∧ (w.agencies.map Agency.roster).flatten.Nodup

instance (w : World) : Decidable (Consistent w) := by
  unfold Consistent; infer_instance

/-- Per-prospect body of the signing loop in AIAgencyManager.scoutAndSign:
skip when the agency cannot afford the estimated cost, otherwise, when the
strategy wants the prospect, sign and deduct the cost.  The wants flag
stands for the wantsToSign strategy decision. -/
def aiTrySign (w : World) (aid sid : String) (wants : Bool) : World :=
  match w.agencies.find? (fun a => a.id = aid), w.streamers sid with
  | some ag, some s =>
    let signingCost := estimateSigningCost s.toStreamer
    if ag.money < signingCost then w
    else if wants then
      let w1 := (signStreamerToAgency sid aid w).2
      { w1 with agencies := w1.agencies.map fun a =>
          if a.id = aid then { a with money := a.money - signingCost } else a }
    else w
  | _, _ => w

/-- Per-round walk floor described by the spec: 15 in round 1, 20 in
round 2, 30 from round 3 on (read off Contract.willWalk). -/
def walkFloor (round : ℕ) : ℚ :=
  if round = 1 then 15 else if round = 2 then 20 else if 3 ≤ round then 30 else 0

/-! Concrete fixtures used by the evaluation witnesses. -/

/-- Constant-zero random oracle. -/
def zeroRand : ℕ → ℚ := fun _ => 0

/-- Constant-zero stand-in for the Math.log10 oracle. -/
def zeroLog : ℚ → ℚ := fun _ => 0

/-- A full-rest schedule (takingBreak set). -/
def breakSchedule : WeeklySchedule :=
  { totalHoursPerWeek := 30, platformAllocations := [], takingBreak := true }

/-- A streamer at burnout 95 with consistency 9, as in the spec scenario. -/
def restStreamer : Streamer :=
  { genre := .GAMING, platform := .SWITCH, followers := 1000
    stats := ⟨5, 9, 5, 5, 5, 5, 5⟩, burnout := 95, revenueSplit := 1/2
    age := 25, experienceYears := 0 }

/-- A streamer whose consistency stat and burnout expose the difference
between the AI and player revenue formulas. -/
def streamerConsistencyTen : Streamer :=
  { genre := .GAMING, platform := .SWITCH, followers := 1000
    stats := ⟨5, 10, 5, 5, 5, 5, 5⟩, burnout := 0, revenueSplit := 1/2
    age := 25, experienceYears := 0 }

/-- A streamer on which the AI and player revenue formulas coincide
(consistency 5, burnout 0, split one half). -/
def streamerNeutral : Streamer :=
  { genre := .GAMING, platform := .SWITCH, followers := 1000
    stats := ⟨5, 5, 5, 5, 5, 5, 5⟩, burnout := 0, revenueSplit := 1/2
    age := 25, experienceYears := 0 }

/-- Expectations fixture: bonus 1000, split 0.4, 60 days, non-exclusive. -/
def expectationsA : ContractTerms :=
  { signingBonus := 1000, revenueSplit := 0.4, lengthDays := 60, exclusivity := false }

/-- An offer scoring 32 against expectationsA. -/
def termsLow : ContractTerms :=
  { signingBonus := 400, revenueSplit := 0.4, lengthDays := 60, exclusivity := false }

/-- An offer scoring 23 against expectationsA. -/
def termsVeryLow : ContractTerms :=
  { signingBonus := 100, revenueSplit := 0.4, lengthDays := 60, exclusivity := false }

/-- A negotiation standing at round 3 of 4. -/
def stateRound3 : NegotiationState :=
  { round := 3, maxRounds := 4, streamerMood := .neutral
    currentOffer := termsVeryLow, streamerExpectations := expectationsA
    lastCounterOffer := none }

/-- A negotiation standing at its final round 4 of 4. -/
def stateRound4 : NegotiationState :=
  { round := 4, maxRounds := 4, streamerMood := .neutral
    currentOffer := termsLow, streamerExpectations := expectationsA
    lastCounterOffer := none }

/-- A negotiation already past the ceiling, at round 5 of 4. -/
def stateRound5 : NegotiationState :=
  { round := 5, maxRounds := 4, streamerMood := .neutral
    currentOffer := termsLow, streamerExpectations := expectationsA
    lastCounterOffer := none }

/-- A world streamer fixture at the follower floor with peak 50. -/
def wStreamerA : WStreamer :=
  { genre := .GAMING, platform := .SWITCH, followers := 10
    stats := ⟨5, 5, 5, 5, 5, 5, 5⟩, burnout := 0, revenueSplit := 1/2
    age := 25, experienceYears := 0
    agencyId := none, careerWeeks := 0, peakFollowers := 50
    weeklyImpressions := 50, lastWeekFollowers := 10
    consecutiveBurnoutWeeks := 0, consecutiveDeclineWeeks := 0, retiredWeek := none }

/-- A world streamer rostered by agency a1. -/
def wStreamerSigned : WStreamer :=
  { wStreamerA with agencyId := some "a1" }

/-- A random stream agreeing with zeroRand exactly on the first three
draws. -/
def rngAlt : ℕ → ℚ := fun n => if n < 3 then 0 else 1

/-- The broke second agency of worldA. -/
def agencyA2 : Agency := ⟨"a2", [], 0⟩

/-- A trend one week from expiry. -/
def trendA : Trend :=
  { id := "t1", name := "Test Trend", category := .global
    affectedPlatforms := [], affectedGenres := []
    followerMultiplier := 1.2, revenueMultiplier := 1.1
    durationWeeks := 2, weeksRemaining := 1 }

/-- A consistent two-agency world: s1 rostered by a1, s2 a free agent. -/
def worldA : World :=
  { streamers := fun k =>
      if k = "s1" then some wStreamerSigned
      else if k = "s2" then some wStreamerA
      else none
    agencies := [⟨"a1", ["s1"], 100⟩, ⟨"a2", [], 0⟩]
    freeAgentIds := ["s2"]
    retiredIds := []
    weekNumber := 7 }

/-! Theorems settling the claims, with shared helper lemmas. -/

theorem jsMax_eq (x y : ℚ) : jsMax x y = max x y := (max_def x y).symm

theorem jsMin_eq (x y : ℚ) : jsMin x y = min x y := (min_def x y).symm

/-- C9: on a full-rest schedule the weekly burnout change is exactly minus
the full-rest recovery constant 25, independent of the consistency stat,
the weekly streaming revenue is zero, and applying the week clamps burnout
at 0 from below; in particular burnout 95 becomes 70. -/
theorem claim9_full_rest (s : Streamer) (schedule : WeeklySchedule)
    (growthRand viewsRand : ℕ → ℚ) (lg : ℚ → ℚ)
    (hbreak : schedule.takingBreak = true) (h100 : s.burnout ≤ 100) :
    calculateBurnoutChange s schedule = -25
    ∧ getWeeklyStreamingRevenue s schedule = 0
    ∧ (applyWeeklyChanges s schedule growthRand viewsRand lg).1.burnout
        = max 0 (s.burnout - 25)
    ∧ (s.burnout = 95 →
        (applyWeeklyChanges s schedule growthRand viewsRand lg).1.burnout = 70) := by
  have hchange : calculateBurnoutChange s schedule = -25 := by
    simp [calculateBurnoutChange, hbreak]
  have happly : (applyWeeklyChanges s schedule growthRand viewsRand lg).1.burnout
      = max 0 (s.burnout - 25) := by
    have hmin : min 100 (s.burnout + -25) = s.burnout + -25 :=
      min_eq_right (by linarith)
    simp [applyWeeklyChanges, calculateWeeklyGrowth, getWeeklyViews, hbreak, hchange,
      jsMax_eq, jsMin_eq, hmin]
    ring_nf
  refine ⟨hchange, ?_, happly, ?_⟩
  · simp [getWeeklyStreamingRevenue, hbreak]
  · intro h95
    rw [happly, h95]
    norm_num

/-- Evaluation witness for claim9_full_rest at the spec scenario
(burnout 95, consistency 9, full rest). -/
theorem claim9_full_rest_witness :
    breakSchedule.takingBreak = true ∧ restStreamer.burnout ≤ 100
    ∧ (calculateBurnoutChange restStreamer breakSchedule = -25
      ∧ getWeeklyStreamingRevenue restStreamer breakSchedule = 0
      ∧ (applyWeeklyChanges restStreamer breakSchedule zeroRand zeroRand zeroLog).1.burnout
          = max 0 (restStreamer.burnout - 25)
      ∧ (restStreamer.burnout = 95 →
          (applyWeeklyChanges restStreamer breakSchedule zeroRand zeroRand zeroLog).1.burnout
            = 70)) :=
  ⟨rfl, by norm_num [restStreamer],
    claim9_full_rest restStreamer breakSchedule zeroRand zeroRand zeroLog rfl
      (by norm_num [restStreamer])⟩

/-- C6 counterexample: the walk floors do not loosen as rounds progress.
The floor rises from 15 in round 1 to 20 in round 2, and a score of 18
survives round 1 but triggers a walk in round 2. -/
theorem claim6_counterexample :
    walkFloor 1 < walkFloor 2
    ∧ willWalk 18 1 = false
    ∧ willWalk 18 2 = true := by
  refine ⟨by norm_num [walkFloor], ?_, ?_⟩ <;> norm_num [willWalk]

/-- C6 amended: the walk decision is a pure function of score and round
that triggers exactly when the score is below the per-round floor, these
floors tighten (grow) as rounds progress, and within a round the walk
check is evaluated before the accept check in ScoutScene.makeOffer. -/
theorem claim6_walk_decision (score : ℚ) (r r1 r2 : ℕ) (money : ℚ)
    (state : NegotiationState) (terms : ContractTerms)
    (hr : 1 ≤ r) (hr1 : 1 ≤ r1) (hle : r1 ≤ r2)
    (haff : terms.signingBonus ≤ money)
    (hwalk : willWalk (evaluateOffer terms state.streamerExpectations) state.round = true) :
    (willWalk score r = true ↔ score < walkFloor r)
    ∧ walkFloor r1 ≤ walkFloor r2
    ∧ (makeOffer money state terms).1 = .walked := by
  have floors : ∀ n : ℕ, 1 ≤ n →
      (∀ q : ℚ, willWalk q n = true ↔ q < walkFloor n) ∧
      (15 ≤ walkFloor n) ∧
      (2 ≤ n → 20 ≤ walkFloor n) ∧ (3 ≤ n → walkFloor n = 30) := by
    intro n hn
    by_cases h1 : n = 1
    · subst h1
      refine ⟨fun q => ?_, by norm_num [walkFloor], by omega, by omega⟩
      simp [willWalk, walkFloor]
    · by_cases h2 : n = 2
      · subst h2
        refine ⟨fun q => ?_, by norm_num [walkFloor],
          fun _ => by norm_num [walkFloor], by omega⟩
        simp [willWalk, walkFloor]
      · have h3 : 3 ≤ n := by omega
        refine ⟨fun q => ?_, ?_, fun _ => ?_, fun _ => ?_⟩
        · simp [willWalk, walkFloor, h1, h2, h3]
        · simp only [walkFloor, if_neg h1, if_neg h2, if_pos h3]; norm_num
        · simp only [walkFloor, if_neg h1, if_neg h2, if_pos h3]; norm_num
        · simp only [walkFloor, if_neg h1, if_neg h2, if_pos h3]
  refine ⟨(floors r hr).1 score, ?_, ?_⟩
  · by_cases e1 : r1 = 1
    · subst e1
      have : (15 : ℚ) ≤ walkFloor r2 := (floors r2 (by omega)).2.1
      simpa [walkFloor] using this
    · by_cases e2 : r1 = 2
      · subst e2
        have : (20 : ℚ) ≤ walkFloor r2 := (floors r2 (by omega)).2.2.1 (by omega)
        simpa [walkFloor] using this
      · have h31 : 3 ≤ r1 := by omega
        rw [(floors r1 hr1).2.2.2 h31, (floors r2 (by omega)).2.2.2 (by omega)]
  · have hnot : ¬ terms.signingBonus > money := not_lt.mpr haff
    simp [makeOffer, hnot, hwalk]

/-- Evaluation witness for claim6_walk_decision: round 3, an offer scoring
23 against expectationsA walks. -/
theorem claim6_walk_decision_witness :
    (1 ≤ 1 ∧ 1 ≤ 1 ∧ 1 ≤ 3
      ∧ termsVeryLow.signingBonus ≤ (10000 : ℚ)
      ∧ willWalk (evaluateOffer termsVeryLow stateRound3.streamerExpectations)
          stateRound3.round = true)
    ∧ ((willWalk 18 1 = true ↔ (18 : ℚ) < walkFloor 1)
      ∧ walkFloor 1 ≤ walkFloor 3
      ∧ (makeOffer 10000 stateRound3 termsVeryLow).1 = .walked) :=
  ⟨⟨le_refl 1, le_refl 1, by omega, by norm_num [termsVeryLow],
      by norm_num [willWalk, evaluateOffer, stateRound3, termsVeryLow, expectationsA,
        jsMax, jsMin]⟩,
    claim6_walk_decision 18 1 1 3 10000 stateRound3 termsVeryLow
      (le_refl 1) (le_refl 1) (by omega) (by norm_num [termsVeryLow])
      (by norm_num [willWalk, evaluateOffer, stateRound3, termsVeryLow, expectationsA,
        jsMax, jsMin])⟩

/-- C5 counterexample: at round 4 of a maxRounds 4 negotiation, an
affordable offer scoring 32 neither walks nor is accepted; the code
counters and advances the round counter to 5, continuing the protocol past
the round ceiling instead of forcing acceptance or withdrawal. -/
theorem claim5_counterexample :
    stateRound4.maxRounds = 4 ∧ stateRound4.round = 4
    ∧ (makeOffer 10000 stateRound4 termsLow).1 = .countered
    ∧ (makeOffer 10000 stateRound4 termsLow).2.round = 5 := by
  refine ⟨rfl, rfl, ?_, ?_⟩ <;>
    norm_num [makeOffer, evaluateOffer, willWalk, willAccept, getMood,
      generateCounterOffer, stateRound4, termsLow, expectationsA,
      jsMax, jsMin, jsFloor, jsRound]

/-- C5 amended: the negotiation resolves within maxRounds + 1 rounds
rather than maxRounds.  Every affordable offer submitted at round 5 or
later is resolved (walk or accept), a countered offer advances the round
counter by exactly 1, and the round counter never decreases; hence with
the round ceiling 4 used by ScoutScene, play can continue one round past
the ceiling but never loops indefinitely.  The acquirer may additionally
withdraw at any time. -/
theorem claim5_round_bound (money : ℚ) (state : NegotiationState)
    (terms : ContractTerms)
    (haff : terms.signingBonus ≤ money) (h5 : 5 ≤ state.round) :
    ((makeOffer money state terms).1 = .walked
      ∨ (makeOffer money state terms).1 = .accepted)
    ∧ (∀ (m2 : ℚ) (st2 : NegotiationState) (t2 : ContractTerms),
        (makeOffer m2 st2 t2).1 = .countered →
        (makeOffer m2 st2 t2).2.round = st2.round + 1)
    ∧ (∀ (m2 : ℚ) (st2 : NegotiationState) (t2 : ContractTerms),
        st2.round ≤ (makeOffer m2 st2 t2).2.round) := by
  have hnot : ¬ terms.signingBonus > money := not_lt.mpr haff
  refine ⟨?_, ?_, ?_⟩
  · by_cases hw : willWalk (evaluateOffer terms state.streamerExpectations) state.round = true
    · left; simp [makeOffer, hnot, hw]
    · right
      have h1 : state.round ≠ 1 := by omega
      have h2 : state.round ≠ 2 := by omega
      have h3 : 3 ≤ state.round := by omega
      have h30 : (30 : ℚ) ≤ evaluateOffer terms state.streamerExpectations := by
        simp [willWalk, h1, h2, h3] at hw
        linarith
      have hcast : (5 : ℚ) ≤ (state.round : ℚ) := by exact_mod_cast h5
      have hacc : willAccept (evaluateOffer terms state.streamerExpectations)
          state.round = true := by
        simp [willAccept]
        nlinarith
      simp [makeOffer, hnot, hw, hacc]
  · intro m2 st2 t2 h
    by_cases hb : t2.signingBonus > m2
    · simp [makeOffer, hb] at h
    · by_cases hw : willWalk (evaluateOffer t2 st2.streamerExpectations) st2.round = true
      · simp [makeOffer, hb, hw] at h
      · by_cases ha : willAccept (evaluateOffer t2 st2.streamerExpectations) st2.round = true
        · simp [makeOffer, hb, hw, ha] at h
        · by_cases hm : st2.round ≥ st2.maxRounds
          · simp [makeOffer, hb, hw, ha, hm]
          · simp [makeOffer, hb, hw, ha, hm]
  · intro m2 st2 t2
    by_cases hb : t2.signingBonus > m2
    · simp [makeOffer, hb]
    · by_cases hw : willWalk (evaluateOffer t2 st2.streamerExpectations) st2.round = true
      · simp [makeOffer, hb, hw]
      · by_cases ha : willAccept (evaluateOffer t2 st2.streamerExpectations) st2.round = true
        · simp [makeOffer, hb, hw, ha]
        · by_cases hm : st2.round ≥ st2.maxRounds
          · simp [makeOffer, hb, hw, ha, hm]
          · simp [makeOffer, hb, hw, ha, hm]

/-- Evaluation witness for claim5_round_bound at round 5 with an
affordable offer. -/
theorem claim5_round_bound_witness :
    (termsLow.signingBonus ≤ (10000 : ℚ) ∧ 5 ≤ stateRound5.round)
    ∧ (((makeOffer 10000 stateRound5 termsLow).1 = .walked
        ∨ (makeOffer 10000 stateRound5 termsLow).1 = .accepted)
      ∧ (∀ (m2 : ℚ) (st2 : NegotiationState) (t2 : ContractTerms),
          (makeOffer m2 st2 t2).1 = .countered →
          (makeOffer m2 st2 t2).2.round = st2.round + 1)
      ∧ (∀ (m2 : ℚ) (st2 : NegotiationState) (t2 : ContractTerms),
          st2.round ≤ (makeOffer m2 st2 t2).2.round)) :=
  ⟨⟨by norm_num [termsLow], by norm_num [stateRound5]⟩,
    claim5_round_bound 10000 stateRound5 termsLow
      (by norm_num [termsLow]) (by norm_num [stateRound5])⟩

/-- The backwards expiry loop of updateTrends equals: decrement every
trend, keep those still positive (in order), report the nonpositive ones
in reverse visiting order. -/
theorem coreTrends_eq (l : List Trend) :
    coreTrends l
      = ((l.map decTrend).filter (fun x => 0 < x.weeksRemaining),
        ((l.map decTrend).filter (fun x => x.weeksRemaining ≤ 0)).reverse) := by
  induction l with
  | nil => rfl
  | cons t rest ih =>
    simp only [coreTrends, ih, List.map_cons, List.filter_cons]
    by_cases h : (decTrend t).weeksRemaining ≤ 0
    · have h2 : ¬ (0 < (decTrend t).weeksRemaining) := by omega
      simp [h, h2]
    · have h2 : 0 < (decTrend t).weeksRemaining := by omega
      simp [h, h2]

/-- Every trend produced by generateRandomTrend starts with a positive
weeksRemaining (each template duration is positive). -/
theorem genTrendPos : ∀ (n : ℕ) (q1 q2 : ℚ), 0 < (generateRandomTrend n q1 q2).weeksRemaining := by
  intro n q1 q2
  simp only [generateRandomTrend]
  rcases Nat.lt_or_ge (⌊q1 * 11⌋).toNat trendTemplates.length with h | h
  · have hmem : trendTemplates.getD (⌊q1 * 11⌋).toNat
        ⟨"Switch Surge", .platform, [.SWITCH], [], 1.3, 1.1, 3⟩ ∈ trendTemplates := by
      rw [List.getD_eq_getElem?_getD, List.getElem?_eq_getElem h]
      exact List.getElem_mem _
    have hall : ∀ x ∈ trendTemplates, 0 < x.durationWeeks := by decide
    exact hall _ hmem
  · rw [List.getD_eq_default _ _ h]
    decide

theorem decTrend_injective : Function.Injective decTrend := by
  rintro ⟨i, n, c, ap, ag, fm, rm, dw, wr⟩ ⟨i2, n2, c2, ap2, ag2, fm2, rm2, dw2, wr2⟩ h
  simp only [decTrend, Trend.mk.injEq] at h ⊢
  obtain ⟨h1, h2, h3, h4, h5, h6, h7, h8, h9⟩ := h
  exact ⟨h1, h2, h3, h4, h5, h6, h7, h8, by omega⟩

/-- C3: on every tick the trend engine decrements every active counter by
exactly 1 and removes exactly the trends reaching zero, which appear in
the ended list exactly once; the active count stays at or below the cap of
3, at most one new trend starts per tick, and only when fewer than 3 are
active after expiry; freshly generated trends always carry a positive
counter. -/
theorem claim3_trend_engine (trends : List Trend) (startRoll : ℚ) (newTrend t : Trend)
    (hcap : trends.length ≤ 3) (hpos : 0 < newTrend.weeksRemaining)
    (hcount : trends.count t = 1) (hone : t.weeksRemaining = 1) :
    (coreTrends trends).1 = (trends.map decTrend).filter (fun x => 0 < x.weeksRemaining)
    ∧ (coreTrends trends).2
        = ((trends.map decTrend).filter (fun x => x.weeksRemaining ≤ 0)).reverse
    ∧ (updateTrends trends startRoll newTrend).1.length ≤ 3
    ∧ ((updateTrends trends startRoll newTrend).2.2 = []
        ∨ (updateTrends trends startRoll newTrend).2.2 = [newTrend])
    ∧ ((updateTrends trends startRoll newTrend).2.2 ≠ [] →
        (coreTrends trends).1.length < 3)
    ∧ (updateTrends trends startRoll newTrend).2.1.count (decTrend t) = 1
    ∧ decTrend t ∉ (updateTrends trends startRoll newTrend).1
    ∧ (∀ (n : ℕ) (q1 q2 : ℚ), 0 < (generateRandomTrend n q1 q2).weeksRemaining) := by
  have hcore := coreTrends_eq trends
  have hwr : (decTrend t).weeksRemaining = 0 := by simp [decTrend, hone]
  have hactlen : (coreTrends trends).1.length ≤ trends.length := by
    rw [hcore]
    calc ((trends.map decTrend).filter (fun x => 0 < x.weeksRemaining)).length
        ≤ (trends.map decTrend).length := List.length_filter_le _ _
      _ = trends.length := List.length_map _ _
  have hended : (updateTrends trends startRoll newTrend).2.1 = (coreTrends trends).2 := by
    simp only [updateTrends]
    split <;> rfl
  have hnotmem : decTrend t ∉ (coreTrends trends).1 := by
    rw [hcore]
    intro hmem
    have := (List.mem_filter.mp hmem).2
    simp [hwr] at this
  by_cases hc : ((coreTrends trends).1.length < 3 ∧ startRoll < 0.20)
  case pos =>
    refine ⟨hcore ▸ rfl, hcore ▸ rfl, ?_, ?_, ?_, ?_, ?_, ?_⟩
    · simp only [updateTrends, if_pos hc, List.length_append, List.length_singleton]
      omega
    · simp only [updateTrends, if_pos hc]
      exact Or.inr trivial
    · intro _
      exact hc.1
    · rw [hended, hcore]
      rw [List.count_reverse, List.count_filter (by simp [hwr]),
        List.count_map_of_injective _ decTrend decTrend_injective, hcount]
    · simp only [updateTrends, if_pos hc]
      intro hmem
      rcases List.mem_append.mp hmem with hmem | hmem
      · exact hnotmem hmem
      · have := List.mem_singleton.mp hmem
        rw [this] at hwr
        omega
    · exact genTrendPos
  case neg =>
    refine ⟨hcore ▸ rfl, hcore ▸ rfl, ?_, ?_, ?_, ?_, ?_, ?_⟩
    · simp only [updateTrends, if_neg hc]
      exact hactlen.trans hcap
    · simp only [updateTrends, if_neg hc]
      exact Or.inl trivial
    · simp only [updateTrends, if_neg hc]
      intro hne
      exact absurd rfl hne
    · rw [hended, hcore]
      rw [List.count_reverse, List.count_filter (by simp [hwr]),
        List.count_map_of_injective _ decTrend decTrend_injective, hcount]
    · simp only [updateTrends, if_neg hc]
      exact hnotmem
    · exact genTrendPos

/-- Evaluation witness for claim3_trend_engine: one active trend with a
single week remaining, a start roll of 0 and a generated replacement. -/
theorem claim3_trend_engine_witness :
    ([trendA].length ≤ 3 ∧ 0 < (generateRandomTrend 0 0 0).weeksRemaining
      ∧ [trendA].count trendA = 1 ∧ trendA.weeksRemaining = 1)
    ∧ ((coreTrends [trendA]).1
          = ([trendA].map decTrend).filter (fun x => 0 < x.weeksRemaining)
      ∧ (coreTrends [trendA]).2
          = (([trendA].map decTrend).filter (fun x => x.weeksRemaining ≤ 0)).reverse
      ∧ (updateTrends [trendA] 0 (generateRandomTrend 0 0 0)).1.length ≤ 3
      ∧ ((updateTrends [trendA] 0 (generateRandomTrend 0 0 0)).2.2 = []
          ∨ (updateTrends [trendA] 0 (generateRandomTrend 0 0 0)).2.2
              = [generateRandomTrend 0 0 0])
      ∧ ((updateTrends [trendA] 0 (generateRandomTrend 0 0 0)).2.2 ≠ [] →
          (coreTrends [trendA]).1.length < 3)
      ∧ (updateTrends [trendA] 0 (generateRandomTrend 0 0 0)).2.1.count (decTrend trendA) = 1
      ∧ decTrend trendA ∉ (updateTrends [trendA] 0 (generateRandomTrend 0 0 0)).1
      ∧ (∀ (n : ℕ) (q1 q2 : ℚ), 0 < (generateRandomTrend n q1 q2).weeksRemaining)) :=
  ⟨⟨by norm_num, genTrendPos 0 0 0, by simp, rfl⟩,
    claim3_trend_engine [trendA] 0 (generateRandomTrend 0 0 0) trendA
      (by norm_num) (genTrendPos 0 0 0) (by simp) rfl⟩

/-- C7 counterexample: the AI weekly revenue does not match the
player-facing formula for all attributes.  For a streamer with
consistency 10 (and burnout 0, split one half) the player formula pays the
4 percent consistency bonus that the AI formula omits: 10 versus 9. -/
theorem claim7_counterexample :
    aiWeeklyRevenue [streamerConsistencyTen]
      ≠ getEstimatedWeeklyRevenue streamerConsistencyTen := by
  have h1 : aiWeeklyRevenue [streamerConsistencyTen] = 9 := by
    norm_num [aiWeeklyRevenue, aiStreamerRevenue, streamerConsistencyTen,
      PLATFORMS, GENRES, platformAffinity, jsFloor]
  have h2 : getEstimatedWeeklyRevenue streamerConsistencyTen = 10 := by
    norm_num [getEstimatedWeeklyRevenue, getWeeklyStreamingRevenue, defaultSchedule,
      weeklyAllocationRevenue, getBurnoutPenalty, streamerConsistencyTen,
      PLATFORMS, GENRES, platformAffinity, jsFloor]
  rw [h1, h2]
  norm_num

/-- C7 amended: the AI revenue keeps the factor structure of the player
formula (base rate, default 30 hours, platform, genre and affinity
multipliers, charisma and skill bonuses, fixed one-half split) but omits
the consistency bonus and replaces the piecewise burnout penalty with a
linear one; consequently the two computations agree exactly on streamers
with a neutral consistency stat of 5 and zero burnout whose contract split
is the fixed one half. -/
theorem claim7_ai_player_revenue (s : Streamer)
    (hcons : s.stats.consistency = 5) (hburn : s.burnout = 0)
    (hsplit : s.revenueSplit = 1/2) :
    aiWeeklyRevenue [s] = getEstimatedWeeklyRevenue s := by
  simp only [aiWeeklyRevenue, aiStreamerRevenue, getEstimatedWeeklyRevenue,
    getWeeklyStreamingRevenue, defaultSchedule, weeklyAllocationRevenue,
    getBurnoutPenalty, hcons, hburn, hsplit, List.map_cons, List.map_nil,
    List.sum_cons, List.sum_nil, jsFloor]
  norm_num

/-- Evaluation witness for claim7_ai_player_revenue on a neutral streamer. -/
theorem claim7_ai_player_revenue_witness :
    (streamerNeutral.stats.consistency = 5 ∧ streamerNeutral.burnout = 0
      ∧ streamerNeutral.revenueSplit = 1/2)
    ∧ aiWeeklyRevenue [streamerNeutral] = getEstimatedWeeklyRevenue streamerNeutral :=
  ⟨⟨rfl, rfl, rfl⟩, claim7_ai_player_revenue streamerNeutral rfl rfl rfl⟩

/-- C8: when an estimated signing cost exceeds the AI agency funds the
prospect is skipped with no state mutation at all, and a player offer
whose signing bonus exceeds the player funds is answered with a
cannot-afford outcome that leaves the negotiation state unchanged. -/
theorem claim8_cannot_afford (w : World) (aid sid : String) (ag : Agency)
    (s : WStreamer) (money : ℚ) (state : NegotiationState) (terms : ContractTerms)
    (hag : w.agencies.find? (fun a => a.id = aid) = some ag)
    (hs : w.streamers sid = some s)
    (hpoorAI : ag.money < estimateSigningCost s.toStreamer)
    (hpoorPlayer : terms.signingBonus > money) :
    (∀ wants, aiTrySign w aid sid wants = w)
    ∧ makeOffer money state terms = (.cannotAfford, state) := by
  constructor
  · intro wants
    simp [aiTrySign, hag, hs, hpoorAI]
  · simp [makeOffer, hpoorPlayer]

/-- Evaluation witness for claim8_cannot_afford: the broke agency a2 of
worldA cannot afford the free agent s2, and an offer of 400 exceeds a
player treasury of 0. -/
theorem claim8_cannot_afford_witness :
    (worldA.agencies.find? (fun a => a.id = "a2") = some agencyA2
      ∧ worldA.streamers "s2" = some wStreamerA
      ∧ agencyA2.money < estimateSigningCost wStreamerA.toStreamer
      ∧ termsLow.signingBonus > (0 : ℚ))
    ∧ ((∀ wants, aiTrySign worldA "a2" "s2" wants = worldA)
      ∧ makeOffer 0 stateRound3 termsLow = (.cannotAfford, stateRound3)) :=
  ⟨⟨rfl, rfl,
      by norm_num [estimateSigningCost, wStreamerA, agencyA2, jsMax, jsMin, jsFloor],
      by norm_num [termsLow]⟩,
    claim8_cannot_afford worldA "a2" "s2" agencyA2 wStreamerA 0 stateRound3 termsLow
      rfl rfl
      (by norm_num [estimateSigningCost, wStreamerA, agencyA2, jsMax, jsMin, jsFloor])
      (by norm_num [termsLow])⟩

/-- The base-36 suffix of a zero draw is nine zero digits. -/
theorem base36Suffix_zero : base36Suffix 0 = "000000000" := by
  have hz : ∀ k : ℕ, ((⌊(0 : ℚ) * 36 ^ k⌋).toNat % 36) = 0 := by
    intro k
    norm_num
  simp only [base36Suffix, List.range_succ, List.range_zero, List.map_append,
    List.map_cons, List.map_nil, hz]
  rfl

/-- C4 counterexample: two runs of the trend stage from the same (empty)
trend state with the identical all-zero random stream give different
results when the wall clock differs, because generateRandomTrend embeds
Date.now() in the generated trend id.  A fixed random seed therefore does
not make two runs of the tick byte-identical. -/
theorem claim4_counterexample :
    updateTrendsRand [] 0 zeroRand ≠ updateTrendsRand [] 1 zeroRand := by
  have hrun : ∀ now : ℕ, updateTrendsRand [] now zeroRand
      = ([generateRandomTrend now 0 0], [], [generateRandomTrend now 0 0]) := by
    intro now
    have : ((0 : ℚ) < 0.20) := by norm_num
    simp [updateTrendsRand, updateTrends, coreTrends, zeroRand, this]
  have hid : ∀ now, trendId now 0 = "trend_" ++ toString now ++ "_" ++ "000000000" := by
    intro now
    rw [trendId, base36Suffix_zero]
  have hne : generateRandomTrend 0 0 0 ≠ generateRandomTrend 1 0 0 := by
    intro h
    have hids : trendId 0 0 = trendId 1 0 := congrArg Trend.id h
    rw [hid 0, hid 1] at hids
    exact absurd hids (by decide)
  intro h
  rw [hrun 0, hrun 1] at h
  have h2 : generateRandomTrend 0 0 0 = generateRandomTrend 1 0 0 := by
    have := congrArg (fun p => p.1) h
    simpa using this
  exact hne h2

/-- C4 amended: the tick is reproducible only once both the random stream
and the clock are fixed.  The trend stage of simulateWeek consumes the
first three draws of the ambient stream, and its entire output is
determined by the prior trend state, those draws, and the Date.now()
value; two runs agreeing on all of these agree exactly. -/
theorem claim4_replay (trends : List Trend) (now : ℕ) (rng rng2 : ℕ → ℚ)
    (h0 : rng 0 = rng2 0) (h1 : rng 1 = rng2 1) (h2 : rng 2 = rng2 2) :
    updateTrendsRand trends now rng = updateTrendsRand trends now rng2 := by
  simp [updateTrendsRand, h0, h1, h2]

/-- Evaluation witness for claim4_replay: zeroRand and rngAlt differ as
functions but agree on the three consumed draws, so the stage agrees. -/
theorem claim4_replay_witness :
    (zeroRand 0 = rngAlt 0 ∧ zeroRand 1 = rngAlt 1 ∧ zeroRand 2 = rngAlt 2)
    ∧ updateTrendsRand [trendA] 5 zeroRand = updateTrendsRand [trendA] 5 rngAlt :=
  ⟨⟨rfl, rfl, rfl⟩, claim4_replay [trendA] 5 zeroRand rngAlt rfl rfl rfl⟩

/-- C1: after the weekly tick every mutation path keeps a streamer at or
above the 10 follower floor with burnout in [0, 100].  The growth path of
simulateAllStreamers and the player-side applyWeeklyChanges clamp
unconditionally; the comeback path sets followers to the floor of one
fifth of peak, which stays at or above 10 because every streamer enters
the world with at least 50 followers (rookieFollowers, final conjunct)
and peak followers never decrease (fourth conjunct of the first group). -/
theorem claim1_invariant_bounds (s : WStreamer) (trends : List Trend)
    (rand gr vr : ℕ → ℚ) (lg : ℚ → ℚ) (schedule : WeeklySchedule) (r : ℚ)
    (hpeak : 50 ≤ s.peakFollowers) (hr : 0 ≤ r) :
    (10 ≤ (simulateStreamerStep s trends rand lg).followers
      ∧ 0 ≤ (simulateStreamerStep s trends rand lg).burnout
      ∧ (simulateStreamerStep s trends rand lg).burnout ≤ 100
      ∧ 50 ≤ (simulateStreamerStep s trends rand lg).peakFollowers)
    ∧ (10 ≤ (processComeback s).followers
      ∧ 0 ≤ (processComeback s).burnout ∧ (processComeback s).burnout ≤ 100)
    ∧ (10 ≤ (applyWeeklyChanges s.toStreamer schedule gr vr lg).1.followers
      ∧ 0 ≤ (applyWeeklyChanges s.toStreamer schedule gr vr lg).1.burnout
      ∧ (applyWeeklyChanges s.toStreamer schedule gr vr lg).1.burnout ≤ 100)
    ∧ 50 ≤ rookieFollowers r := by
  have hclampLow : ∀ z : ℚ, (0 : ℚ) ≤ jsMax 0 (jsMin 100 z) := by
    intro z
    rw [jsMax_eq]
    exact le_max_left _ _
  have hclampHigh : ∀ z : ℚ, jsMax 0 (jsMin 100 z) ≤ 100 := by
    intro z
    rw [jsMax_eq, jsMin_eq]
    exact max_le (by norm_num) (min_le_left _ _)
  have hfloorTen : ∀ z : ℚ, (10 : ℚ) ≤ jsMax 10 z := by
    intro z
    rw [jsMax_eq]
    exact le_max_left _ _
  refine ⟨⟨?_, ?_, ?_, ?_⟩, ⟨?_, ?_, ?_⟩, ⟨?_, ?_, ?_⟩, ?_⟩
  · simp only [simulateStreamerStep]
    exact hfloorTen _
  · simp only [simulateStreamerStep]
    exact hclampLow _
  · simp only [simulateStreamerStep]
    exact hclampHigh _
  · simp only [simulateStreamerStep]
    split
    · next h => exact hpeak.trans (le_of_lt h)
    · exact hpeak
  · simp only [processComeback, jsFloor]
    have hfl : (10 : ℤ) ≤ ⌊s.peakFollowers * 0.2⌋ := by
      rw [Int.le_floor]
      push_cast
      linarith
    exact_mod_cast hfl
  · simp only [processComeback]
    norm_num
  · simp only [processComeback]
    norm_num
  · simp only [applyWeeklyChanges]
    exact hfloorTen _
  · simp only [applyWeeklyChanges]
    exact hclampLow _
  · simp only [applyWeeklyChanges]
    exact hclampHigh _
  · simp only [rookieFollowers, jsFloor]
    have hfl : (50 : ℤ) ≤ ⌊(50 : ℚ) + r * 450⌋ := by
      rw [Int.le_floor]
      push_cast
      nlinarith
    exact_mod_cast hfl

/-- Evaluation witness for claim1_invariant_bounds on the fixture
streamer with peak followers exactly 50. -/
theorem claim1_invariant_bounds_witness :
    (50 ≤ wStreamerA.peakFollowers ∧ (0 : ℚ) ≤ 0)
    ∧ ((10 ≤ (simulateStreamerStep wStreamerA [trendA] zeroRand zeroLog).followers
      ∧ 0 ≤ (simulateStreamerStep wStreamerA [trendA] zeroRand zeroLog).burnout
      ∧ (simulateStreamerStep wStreamerA [trendA] zeroRand zeroLog).burnout ≤ 100
      ∧ 50 ≤ (simulateStreamerStep wStreamerA [trendA] zeroRand zeroLog).peakFollowers)
    ∧ (10 ≤ (processComeback wStreamerA).followers
      ∧ 0 ≤ (processComeback wStreamerA).burnout
      ∧ (processComeback wStreamerA).burnout ≤ 100)
    ∧ (10 ≤ (applyWeeklyChanges wStreamerA.toStreamer breakSchedule zeroRand zeroRand
          zeroLog).1.followers
      ∧ 0 ≤ (applyWeeklyChanges wStreamerA.toStreamer breakSchedule zeroRand zeroRand
          zeroLog).1.burnout
      ∧ (applyWeeklyChanges wStreamerA.toStreamer breakSchedule zeroRand zeroRand
          zeroLog).1.burnout ≤ 100)
    ∧ 50 ≤ rookieFollowers 0) :=
  ⟨⟨by norm_num [wStreamerA], le_refl 0⟩,
    claim1_invariant_bounds wStreamerA [trendA] zeroRand zeroRand zeroRand zeroLog
      breakSchedule 0 (by norm_num [wStreamerA]) (le_refl 0)⟩

/-- After pushRoster with matching find?, some agency with the target id
holds the pushed streamer id. -/
theorem pushRoster_mem (l : List Agency) (aid sid : String) (ag : Agency)
    (h : l.find? (fun a => a.id = aid) = some ag) :
    ∃ a ∈ pushRoster l aid sid, a.id = aid ∧ sid ∈ a.roster := by
  induction l with
  | nil => simp at h
  | cons b rest ih =>
    by_cases hb : b.id = aid
    · refine ⟨{ b with roster := b.roster ++ [sid] }, ?_, hb, by simp⟩
      simp [pushRoster, hb]
    · rw [List.find?_cons_of_neg _ (by simpa using hb)] at h
      obtain ⟨a, hmem, hprop⟩ := ih h
      exact ⟨a, by simp [pushRoster, hb, hmem], hprop⟩

/-- C10: signStreamerToAgency returns false and leaves the world untouched
when the streamer id is unknown, when the streamer already has an
employer, or when the agency id is unknown; it returns true only for a
stored streamer with a null employer, and then it removes the id from the
free-agent list (first occurrence), sets the employer, and pushes the id
onto the roster of the agency found. -/
theorem claim10_sign_spec (w : World) (sid aid : String) :
    (w.streamers sid = none → signStreamerToAgency sid aid w = (false, w))
    ∧ (∀ s, w.streamers sid = some s → s.agencyId ≠ none →
        signStreamerToAgency sid aid w = (false, w))
    ∧ (w.agencies.find? (fun a => a.id = aid) = none →
        signStreamerToAgency sid aid w = (false, w))
    ∧ ((signStreamerToAgency sid aid w).1 = true →
        ∃ s, w.streamers sid = some s ∧ s.agencyId = none)
    ∧ (∀ s ag, w.streamers sid = some s → s.agencyId = none →
        w.agencies.find? (fun a => a.id = aid) = some ag →
        (signStreamerToAgency sid aid w).1 = true
        ∧ (signStreamerToAgency sid aid w).2.freeAgentIds = w.freeAgentIds.erase sid
        ∧ (signStreamerToAgency sid aid w).2.streamers sid
            = some { s with agencyId := some aid }
        ∧ (w.freeAgentIds.Nodup → sid ∉ (signStreamerToAgency sid aid w).2.freeAgentIds)
        ∧ ∃ a ∈ (signStreamerToAgency sid aid w).2.agencies,
            a.id = aid ∧ sid ∈ a.roster) := by
  refine ⟨?_, ?_, ?_, ?_, ?_⟩
  · intro h
    simp [signStreamerToAgency, h]
  · intro s hs hne
    simp [signStreamerToAgency, hs, hne]
  · intro hfind
    cases hmatch : w.streamers sid with
    | none => simp [signStreamerToAgency, hmatch]
    | some s =>
      by_cases ha : s.agencyId = none
      · simp [signStreamerToAgency, hmatch, ha, hfind]
      · simp [signStreamerToAgency, hmatch, ha]
  · intro htrue
    cases hmatch : w.streamers sid with
    | none => simp [signStreamerToAgency, hmatch] at htrue
    | some s =>
      by_cases ha : s.agencyId = none
      · exact ⟨s, rfl, ha⟩
      · simp [signStreamerToAgency, hmatch, ha] at htrue
  · intro s ag hs hnone hfind
    refine ⟨?_, ?_, ?_, ?_, ?_⟩
    · simp [signStreamerToAgency, hs, hnone, hfind]
    · simp [signStreamerToAgency, hs, hnone, hfind]
    · simp [signStreamerToAgency, hs, hnone, hfind]
    · intro hnd
      simp only [signStreamerToAgency, hs, hnone, hfind]
      simpa using hnd.not_mem_erase
    · simp only [signStreamerToAgency, hs, hnone, hfind]
      simpa using pushRoster_mem w.agencies aid sid ag hfind

/-- Evaluation witness for claim10_sign_spec: signing the free agent s2
into agency a2 of worldA. -/
theorem claim10_sign_spec_witness :
    (worldA.streamers "s2" = some wStreamerA ∧ wStreamerA.agencyId = none
      ∧ worldA.agencies.find? (fun a => a.id = "a2") = some agencyA2)
    ∧ ((signStreamerToAgency "s2" "a2" worldA).1 = true
      ∧ (signStreamerToAgency "s2" "a2" worldA).2.freeAgentIds
          = worldA.freeAgentIds.erase "s2"
      ∧ (signStreamerToAgency "s2" "a2" worldA).2.streamers "s2"
          = some { wStreamerA with agencyId := some "a2" }
      ∧ (worldA.freeAgentIds.Nodup →
          "s2" ∉ (signStreamerToAgency "s2" "a2" worldA).2.freeAgentIds)
      ∧ ∃ a ∈ (signStreamerToAgency "s2" "a2" worldA).2.agencies,
          a.id = "a2" ∧ "s2" ∈ a.roster) :=
  ⟨⟨rfl, rfl, rfl⟩,
    ((claim10_sign_spec worldA "s2" "a2").2.2.2.2) wStreamerA agencyA2 rfl rfl rfl⟩

theorem pushRoster_map_id (l : List Agency) (aid sid : String) :
    (pushRoster l aid sid).map Agency.id = l.map Agency.id := by
  induction l with
  | nil => rfl
  | cons b rest ih =>
    by_cases hb : b.id = aid
    · simp [pushRoster, hb]
    · simp [pushRoster, hb, ih]

theorem pushRoster_flatten_mem (l : List Agency) (aid sid m : String)
    (h : m ∈ ((pushRoster l aid sid).map Agency.roster).flatten) :
    m = sid ∨ m ∈ (l.map Agency.roster).flatten := by
  induction l with
  | nil => simp [pushRoster] at h
  | cons b rest ih =>
    by_cases hb : b.id = aid
    · simp only [pushRoster, if_pos hb, List.map_cons, List.flatten_cons,
        List.mem_append] at h
      rcases h with (h | h) | h
      · right; simp [h]
      · left; simpa using h
      · right; simp [h]
    · simp only [pushRoster, if_neg hb, List.map_cons, List.flatten_cons,
        List.mem_append] at h
      rcases h with h | h
      · right; simp [h]
      · rcases ih h with h | h
        · exact Or.inl h
        · right; simp only [List.map_cons, List.flatten_cons, List.mem_append]
          exact Or.inr h

theorem pushRoster_flatten_nodup (l : List Agency) (aid sid : String)
    (hnd : ((l.map Agency.roster).flatten).Nodup)
    (hfresh : sid ∉ (l.map Agency.roster).flatten) :
    (((pushRoster l aid sid).map Agency.roster).flatten).Nodup := by
  induction l with
  | nil => simp [pushRoster]
  | cons b rest ih =>
    simp only [List.map_cons, List.flatten_cons] at hnd hfresh
    rcases List.nodup_append.mp hnd with ⟨hb1, hb2, hb3⟩
    have hfresh1 : sid ∉ b.roster := fun h => hfresh (List.mem_append.mpr (Or.inl h))
    have hfresh2 : sid ∉ (rest.map Agency.roster).flatten :=
      fun h => hfresh (List.mem_append.mpr (Or.inr h))
    by_cases hb : b.id = aid
    · simp only [pushRoster, if_pos hb, List.map_cons, List.flatten_cons]
      rw [List.append_assoc, List.singleton_append]
      refine List.nodup_middle.mpr (List.nodup_cons.mpr ⟨?_, hnd⟩)
      intro h
      rcases List.mem_append.mp h with h | h
      · exact hfresh1 h
      · exact hfresh2 h
    · simp only [pushRoster, if_neg hb, List.map_cons, List.flatten_cons]
      refine List.nodup_append.mpr ⟨hb1, ih hb2 hfresh2, ?_⟩
      intro x hx hx2
      rcases pushRoster_flatten_mem rest aid sid x hx2 with rfl | hx2
      · exact hfresh1 hx
      · exact hb3 hx hx2

theorem pushRoster_employers (l : List Agency) (aid sid : String)
    (E : String → Option (Option String))
    (hB : ∀ a ∈ l, ∀ m ∈ a.roster, E m = some (some a.id))
    (hfresh : ∀ a ∈ l, sid ∉ a.roster) :
    ∀ a ∈ pushRoster l aid sid, ∀ m ∈ a.roster,
      (if m = sid then some (some aid) else E m) = some (some a.id) := by
  induction l with
  | nil => simp [pushRoster]
  | cons b rest ih =>
    by_cases hb : b.id = aid
    · simp only [pushRoster, if_pos hb]
      intro a ha m hm
      rcases List.mem_cons.mp ha with rfl | ha
      · rcases List.mem_append.mp hm with hm | hm
        · have hne : m ≠ sid := fun he => hfresh b (List.mem_cons_self b rest) (he ▸ hm)
          rw [if_neg hne]
          exact hB b (List.mem_cons_self b rest) m hm
        · have he : m = sid := by simpa using hm
          subst he
          rw [if_pos rfl, hb]
      · have hne : m ≠ sid :=
          fun he => hfresh a (List.mem_cons_of_mem b ha) (he ▸ hm)
        rw [if_neg hne]
        exact hB a (List.mem_cons_of_mem b ha) m hm
    · simp only [pushRoster, if_neg hb]
      intro a ha m hm
      rcases List.mem_cons.mp ha with rfl | ha
      · have hne : m ≠ sid := fun he => hfresh a (List.mem_cons_self a rest) (he ▸ hm)
        rw [if_neg hne]
        exact hB a (List.mem_cons_self a rest) m hm
      · exact ih (fun x hx => hB x (List.mem_cons_of_mem b hx))
          (fun x hx => hfresh x (List.mem_cons_of_mem b hx)) a ha m hm

theorem eraseFromRoster_map_id (l : List Agency) (aid sid : String) :
    (eraseFromRoster l aid sid).map Agency.id = l.map Agency.id := by
  induction l with
  | nil => rfl
  | cons b rest ih =>
    by_cases hb : b.id = aid
    · simp [eraseFromRoster, hb]
    · simp [eraseFromRoster, hb, ih]

theorem eraseFromRoster_flatten_sublist (l : List Agency) (aid sid : String) :
    ((eraseFromRoster l aid sid).map Agency.roster).flatten.Sublist
      ((l.map Agency.roster).flatten) := by
  induction l with
  | nil => simp [eraseFromRoster]
  | cons b rest ih =>
    by_cases hb : b.id = aid
    · simp only [eraseFromRoster, if_pos hb, List.map_cons, List.flatten_cons]
      exact (b.roster.erase_sublist sid).append (List.Sublist.refl _)
    · simp only [eraseFromRoster, if_neg hb, List.map_cons, List.flatten_cons]
      exact ih.append_left b.roster

theorem eraseFromRoster_employers (l : List Agency) (aid sid : String)
    (E : String → Option (Option String))
    (hids : (l.map Agency.id).Nodup)
    (hB : ∀ a ∈ l, ∀ m ∈ a.roster, E m = some (some a.id))
    (hJ : ((l.map Agency.roster).flatten).Nodup)
    (haid : E sid = some (some aid)) :
    ∀ a ∈ eraseFromRoster l aid sid, ∀ m ∈ a.roster,
      (if m = sid then some none else E m) = some (some a.id) := by
  induction l with
  | nil => simp [eraseFromRoster]
  | cons b rest ih =>
    simp only [List.map_cons, List.nodup_cons] at hids
    simp only [List.map_cons, List.flatten_cons] at hJ
    rcases List.nodup_append.mp hJ with ⟨hJ1, hJ2, _⟩
    by_cases hb : b.id = aid
    · simp only [eraseFromRoster, if_pos hb]
      intro a ha m hm
      rcases List.mem_cons.mp ha with rfl | ha
      · have hmr : m ∈ b.roster := List.mem_of_mem_erase hm
        have hne : m ≠ sid := by
          intro he
          exact hJ1.not_mem_erase (he ▸ hm)
        rw [if_neg hne]
        exact hB b (List.mem_cons_self b rest) m hmr
      · have hne : m ≠ sid := by
          intro he
          have hE := hB a (List.mem_cons_of_mem b ha) m hm
          rw [he, haid] at hE
          have : aid = a.id := by simpa using hE
          apply hids.1
          rw [hb, this]
          exact List.mem_map_of_mem Agency.id ha
        rw [if_neg hne]
        exact hB a (List.mem_cons_of_mem b ha) m hm
    · simp only [eraseFromRoster, if_neg hb]
      intro a ha m hm
      rcases List.mem_cons.mp ha with rfl | ha
      · have hne : m ≠ sid := by
          intro he
          have hE := hB a (List.mem_cons_self a rest) m hm
          rw [he, haid] at hE
          have : aid = a.id := by simpa using hE
          exact hb this.symm
        rw [if_neg hne]
        exact hB a (List.mem_cons_self a rest) m hm
      · exact ih hids.2 (fun x hx => hB x (List.mem_cons_of_mem b hx)) hJ2 a ha m hm

theorem consistent_congr (w w2 : World) (hag : w2.agencies = w.agencies)
    (hst : ∀ k, employerView w2 k = employerView w k) :
    Consistent w → Consistent w2 := by
  rintro ⟨h1, h2, h3⟩
  refine ⟨hag ▸ h1, ?_, hag ▸ h3⟩
  intro a ha m hm
  rw [hst m]
  exact h2 a (hag ▸ ha) m hm

theorem sign_preserves_consistent (w : World) (sid aid : String)
    (hw : Consistent w) : Consistent (signStreamerToAgency sid aid w).2 := by
  cases hs : w.streamers sid with
  | none => simpa [signStreamerToAgency, hs] using hw
  | some s =>
    by_cases ha : s.agencyId = none
    case neg => simpa [signStreamerToAgency, hs, ha] using hw
    case pos =>
      cases hfind : w.agencies.find? (fun a => a.id = aid) with
      | none => simpa [signStreamerToAgency, hs, ha, hfind] using hw
      | some ag =>
        have hw2 : (signStreamerToAgency sid aid w).2
            = { w with
                freeAgentIds := w.freeAgentIds.erase sid
                streamers := fun k =>
                  if k = sid then some { s with agencyId := some aid }
                  else w.streamers k
                agencies := pushRoster w.agencies aid sid } := by
          simp [signStreamerToAgency, hs, ha, hfind]
        obtain ⟨h1, h2, h3⟩ := hw
        have hfresh : ∀ a ∈ w.agencies, sid ∉ a.roster := by
          intro a hmem hin
          have hE := h2 a hmem sid hin
          rw [employerView, hs] at hE
          simp [ha] at hE
        have hfreshJ : sid ∉ (w.agencies.map Agency.roster).flatten := by
          simp only [List.mem_flatten, List.mem_map]
          rintro ⟨r, ⟨a, hmem, rfl⟩, hin⟩
          exact hfresh a hmem hin
        rw [hw2]
        refine ⟨?_, ?_, ?_⟩
        · show ((pushRoster w.agencies aid sid).map Agency.id).Nodup
          rw [pushRoster_map_id]
          exact h1
        · intro a hmem m hm
          have hpe := pushRoster_employers w.agencies aid sid (employerView w)
            h2 hfresh a hmem m hm
          show ((if m = sid then some { s with agencyId := some aid }
              else w.streamers m).map (fun x => x.agencyId)) = some (some a.id)
          by_cases hm2 : m = sid
          · rw [if_pos hm2] at hpe ⊢
            simpa using hpe
          · rw [if_neg hm2] at hpe ⊢
            exact hpe
        · show (((pushRoster w.agencies aid sid).map Agency.roster).flatten).Nodup
          exact pushRoster_flatten_nodup w.agencies aid sid h3 hfreshJ

theorem release_preserves_consistent (w : World) (sid : String)
    (hw : Consistent w) : Consistent (releaseStreamerFromAgency sid w).2 := by
  cases hs : w.streamers sid with
  | none => simpa [releaseStreamerFromAgency, hs] using hw
  | some s =>
    cases ha : s.agencyId with
    | none => simpa [releaseStreamerFromAgency, hs, ha] using hw
    | some aid =>
      have hw2 : (releaseStreamerFromAgency sid w).2
          = { w with
              agencies := eraseFromRoster w.agencies aid sid
              streamers := fun k =>
                if k = sid then some { s with agencyId := none }
                else w.streamers k
              freeAgentIds := w.freeAgentIds ++ [sid] } := by
        simp [releaseStreamerFromAgency, hs, ha]
      obtain ⟨h1, h2, h3⟩ := hw
      have haidE : employerView w sid = some (some aid) := by
        simp [employerView, hs, ha]
      rw [hw2]
      refine ⟨?_, ?_, ?_⟩
      · show ((eraseFromRoster w.agencies aid sid).map Agency.id).Nodup
        rw [eraseFromRoster_map_id]
        exact h1
      · intro a hmem m hm
        have hpe := eraseFromRoster_employers w.agencies aid sid (employerView w)
          h1 h2 h3 haidE a hmem m hm
        show ((if m = sid then some { s with agencyId := none }
            else w.streamers m).map (fun x => x.agencyId)) = some (some a.id)
        by_cases hm2 : m = sid
        · rw [if_pos hm2] at hpe ⊢
          simp at hpe
        · rw [if_neg hm2] at hpe ⊢
          exact hpe
      · show (((eraseFromRoster w.agencies aid sid).map Agency.roster).flatten).Nodup
        exact h3.sublist (eraseFromRoster_flatten_sublist w.agencies aid sid)

theorem retire_preserves_consistent (w : World) (sid : String)
    (hw : Consistent w) : Consistent (retireStreamer sid w) := by
  cases hs : w.streamers sid with
  | none => simpa [retireStreamer, hs] using hw
  | some s =>
    have hw1 : Consistent { w with streamers := (fun k =>
        if k = sid then (some { s with retiredWeek := some w.weekNumber })
        else w.streamers k) } := by
      refine consistent_congr w _ rfl ?_ hw
      intro k
      by_cases hk : k = sid
      · subst hk
        simp [employerView, hs]
      · simp [employerView, hk]
    simp only [retireStreamer, hs]
    cases ha : s.agencyId with
    | none =>
      rw [ha] at hw1
      exact consistent_congr _ _ rfl (fun k => rfl) hw1
    | some aid =>
      rw [ha] at hw1
      by_cases hp : aid ≠ "" ∧ aid ≠ "player"
      · simp only [if_pos hp]
        exact consistent_congr _ _ rfl (fun k => rfl)
          (release_preserves_consistent _ sid hw1)
      · simp only [if_neg hp]
        exact consistent_congr _ _ rfl (fun k => rfl) hw1

/-- C2: roster bidirectional consistency (every rostered id names a stored
streamer employed by exactly that agency, and no id sits in two rosters)
is preserved by each of the operations that move streamers between
employment states during a tick: signStreamerToAgency,
releaseStreamerFromAgency and retireStreamer. -/
theorem claim2_roster_consistency (w : World) (sid aid : String)
    (hw : Consistent w) :
    Consistent (signStreamerToAgency sid aid w).2
    ∧ Consistent (releaseStreamerFromAgency sid w).2
    ∧ Consistent (retireStreamer sid w) :=
  ⟨sign_preserves_consistent w sid aid hw,
    release_preserves_consistent w sid hw,
    retire_preserves_consistent w sid hw⟩

/-- Evaluation witness for claim2_roster_consistency on the concrete
two-agency world worldA. -/
theorem claim2_roster_consistency_witness :
    Consistent worldA
    ∧ (Consistent (signStreamerToAgency "s2" "a2" worldA).2
      ∧ Consistent (releaseStreamerFromAgency "s2" worldA).2
      ∧ Consistent (retireStreamer "s2" worldA)) :=
  ⟨by decide, claim2_roster_consistency worldA "s2" "a2" (by decide)⟩

end StreamLord
